import Mathlib

/-!
Verification development for the openstorage cluster coordinator and the
btrfs volume driver.

The embedding covers:
* the `cluster` package's process-wide singleton (`New`, `Start`, `Inst`)
  translated from `cluster.go`;
* the btrfs driver's `Create` translated from `drivers/btrfs/btrfs.go`;
* the cluster bootstrap/join protocol, the versioned cluster store, and the
  ordered listener registry, modelled from the specification (their
  implementation is not part of the published sources; only the interface
  file `cluster.go` is).

Go maps keyed by strings are embedded as association lists; fallible Go
calls return `Except`/`Option`; hidden method bodies become oracle
parameters so that the visible control flow is embedded exactly.
-/

namespace OpenStorage

/-! ## Data model from `cluster.go` -/

/-- Config from `cluster.go`: cluster identity and this node's identity. -/
structure Config where
  ClusterId : String
  NodeId : String
deriving DecidableEq, Repr

/-- NodeEntry from `cluster.go`: bootstrap hint used to discover peers. -/
structure NodeEntry where
  Id : String
  Ip : String
deriving DecidableEq, Repr

/-- Database from `cluster.go`: the single cluster-wide record.  The Go
`Status api.Status` integer is embedded as `Nat` (zero value `0`); the Go
map `map[string]NodeEntry` is embedded as an association list keyed by
node id. -/
structure Database where
  Status : Nat
  Id : String
  NodeEntries : List (String × NodeEntry)
deriving DecidableEq, Repr

/-- Live view of a cluster member (external `api.Node`), restricted to the
fields the coordinator inspects. -/
structure Node where
  Id : String
  Ip : String
deriving DecidableEq, Repr

/-! ## The `cluster` package singleton (`cluster.go` lines 11-120)

`ClusterManager`'s own `Init`/`Start` method bodies are not part of the
published sources, so the manager is embedded with two oracle fields
recording the outcome those hidden methods would produce (`none` =
success, `some e` = the error `e`).  The package-level functions `New`,
`Start` and `Inst` are translated statement by statement. -/

/-- ClusterManager as seen by the package-level functions of `cluster.go`:
its configuration plus the outcomes of its hidden `Init()` and `Start()`
methods. -/
structure ClusterManager where
  config : Config
  initErr : Option String
  startErr : Option String
deriving DecidableEq, Repr

/-- The package-level mutable variable `inst *ClusterManager` of
`cluster.go`. -/
structure PkgState where
  inst : Option ClusterManager
deriving DecidableEq, Repr

/-- Translation of `New(cfg Config, kv kvdb.Kvdb)` from `cluster.go`:
assign `inst`, run `inst.Init()`, clear `inst` and fail on error,
otherwise return the instance. -/
def clusterNew (cfg : Config) (initErr startErr : Option String)
    (_s : PkgState) : Except String ClusterManager × PkgState :=
  let m : ClusterManager := { config := cfg, initErr := initErr, startErr := startErr }
  match m.initErr with
  | some e => (Except.error e, { inst := none })
  | none => (Except.ok m, { inst := some m })

/-- Translation of the package-level `Start()` from `cluster.go`: fail
with "Cluster is not initialized." when `inst` is nil; otherwise run
`inst.Start()` and clear `inst` on error. -/
def clusterStart (s : PkgState) : Option String × PkgState :=
  match s.inst with
  | none => (some "Cluster is not initialized.", s)
  | some m =>
    match m.startErr with
    | some e => (some e, { inst := none })
    | none => (none, s)

/-- Translation of `Inst()` from `cluster.go`: fail with "Cluster is not
initialized." when `inst` is nil, otherwise return the instance. -/
def clusterInst (s : PkgState) : Except String ClusterManager :=
  match s.inst with
  | none => Except.error "Cluster is not initialized."
  | some m => Except.ok m

/-! ## The btrfs driver (`drivers/btrfs/btrfs.go`)

External `api` package values: `api.VolumeID` is a string, `api.BadVolumeID`
is the empty volume id, `api.FsBtrfs` is the filesystem name "btrfs".
Wall-clock timestamps (`Ctime`, `LastScan`) are omitted from the embedding.
The driver's external collaborators — `uuidgen`, the kvdb-backed
`CreateVol`/`UpdateVol`, and the docker btrfs graph driver's
`Create`/`Get` — are embedded as an oracle environment supplying each
call's outcome, while the records they create are tracked in an explicit
driver state. -/

/-- The filesystem constant `api.FsBtrfs`. -/
def FsBtrfs : String := "btrfs"

/-- The constant `api.BadVolumeID` (the empty volume id). -/
def BadVolumeID : String := ""

/-- Volume availability state (`api.VolumeAvailable` and friends). -/
inductive VolumeState
  | available
  | pending
  | attached
  | detached
  | deleted
deriving DecidableEq, Repr

/-- The fields of `api.VolumeLocator` the btrfs driver stores. -/
structure VolumeLocator where
  Name : String
deriving DecidableEq, Repr

/-- Placeholder for `api.CreateOptions`; the btrfs `Create` ignores it. -/
structure CreateOptions where
deriving DecidableEq, Repr

/-- The fields of `api.VolumeSpec` the btrfs driver consults. -/
structure VolumeSpec where
  Format : String
  Size : Nat
deriving DecidableEq, Repr

/-- The fields of `api.Volume` the btrfs `Create` populates (timestamps
omitted). -/
structure Volume where
  ID : String
  Locator : VolumeLocator
  Spec : VolumeSpec
  Format : String
  State : VolumeState
  DevicePath : String
deriving DecidableEq, Repr

/-- Update the association list of volume records at a key (the effect of
`UpdateVol` on an existing record). -/
def setVol (id : String) (v : Volume) : List (String × Volume) → List (String × Volume)
  | [] => [(id, v)]
  | (i, w) :: rest => if i = id then (id, v) :: rest else (i, w) :: setVol id v rest

/-- State owned by the btrfs driver's collaborators: the kvdb volume
records managed through `CreateVol`/`UpdateVol`, and the btrfs subvolumes
created through the graph driver. -/
structure BtrfsState where
  vols : List (String × Volume)
  subvols : List String
deriving DecidableEq, Repr

/-- Outcomes of the external calls made by `btrfsDriver.Create`, in call
order: `uuid()`, `d.CreateVol(v)`, `d.btrfs.Create(volumeID, "")`,
`d.btrfs.Get(volumeID, "")`, `d.UpdateVol(v)`. -/
structure BtrfsEnv where
  uuidResult : Except String String
  createVolErr : Option String
  btrfsCreateErr : Option String
  btrfsGetResult : Except String String
  updateVolErr : Option String
deriving Repr

/-- Translation of `btrfsDriver.Create` from `drivers/btrfs/btrfs.go`:
reject a filesystem format that is neither btrfs nor empty, generate a
volume id, persist the volume record, create the subvolume, resolve its
device path, and update the record. -/
def btrfsDriverCreate (env : BtrfsEnv) (locator : VolumeLocator)
    (_options : Option CreateOptions) (spec : VolumeSpec)
    (s : BtrfsState) : (String × Option String) × BtrfsState :=
  if spec.Format ≠ FsBtrfs ∧ spec.Format ≠ "" then
    ((BadVolumeID,
      some ("Filesystem format (" ++ spec.Format ++ ") must be " ++ FsBtrfs)), s)
  else
    match env.uuidResult with
    | Except.error e => ((BadVolumeID, some e), s)
    | Except.ok volumeID =>
      let v : Volume :=
        { ID := volumeID, Locator := locator, Spec := spec, Format := FsBtrfs,
          State := VolumeState.available, DevicePath := "" }
      match env.createVolErr with
      | some e => ((BadVolumeID, some e), s)
      | none =>
        let s1 : BtrfsState := { s with vols := s.vols ++ [(volumeID, v)] }
        match env.btrfsCreateErr with
        | some e => ((BadVolumeID, some e), s1)
        | none =>
          let s2 : BtrfsState := { s1 with subvols := s1.subvols ++ [volumeID] }
          match env.btrfsGetResult with
          | Except.error e => ((volumeID, some e), s2)
          | Except.ok dp =>
            let v2 : Volume := { v with DevicePath := dp }
            match env.updateVolErr with
            | some e => ((volumeID, some e), s2)
            | none => ((volumeID, none), { s2 with vols := setVol volumeID v2 s2.vols })

/-! ## ClusterStore

Modelled from the spec: the `ClusterStore` implementation is not among the
published sources (only the `cluster.go` interface file is); sections 4.1
and 7 of the specification describe it.  The store holds at most one
versioned `Database` record per cluster id and performs compare-and-swap
conditional writes. -/

/-- Errors of the cluster store, from the spec's error taxonomy. -/
inductive StoreError
  | NotFound
  | VersionConflict
  | StoreUnavailable
deriving DecidableEq, Repr

/-- Look up the versioned record stored under a cluster id. -/
def findRecord (cid : String) : List (String × Database × Nat) → Option (Database × Nat)
  | [] => none
  | (c, db, v) :: rest => if c = cid then some (db, v) else findRecord cid rest

/-- Store a versioned record under a cluster id, replacing any previous
record for that id. -/
def setRecord (cid : String) (db : Database) (v : Nat) :
    List (String × Database × Nat) → List (String × Database × Nat)
  | [] => [(cid, db, v)]
  | (c, d0, v0) :: rest =>
    if c = cid then (cid, db, v) :: rest else (c, d0, v0) :: setRecord cid db v rest

/-- Modelled from the spec: state of the distributed key-value store
behind `ClusterStore` — reachability of the backing store, plus one
versioned `Database` record per cluster id. -/
structure StoreState where
  available : Bool
  records : List (String × Database × Nat)
deriving DecidableEq, Repr

/-- Modelled from the spec: `ReadDatabase(clusterId)` returns the stored
record and its version, fails with `StoreUnavailable` when the backing
store cannot be reached and with `NotFound` when no cluster record exists
yet. -/
def readDatabase (cid : String) (st : StoreState) : Except StoreError (Database × Nat) :=
  if st.available then
    match findRecord cid st.records with
    | some (db, v) => Except.ok (db, v)
    | none => Except.error StoreError.NotFound
  else
    Except.error StoreError.StoreUnavailable

/-- Modelled from the spec: `WriteDatabase(clusterId, db, expectedVersion)`
is a conditional write.  `expectedVersion = none` is create-if-absent; a
version that no longer matches the stored one fails with
`VersionConflict`, leaving the store unchanged; transport failure is
`StoreUnavailable`.  On success the new version is returned. -/
def writeDatabase (cid : String) (db : Database) (expectedVersion : Option Nat)
    (st : StoreState) : Except StoreError Nat × StoreState :=
  if st.available then
    match findRecord cid st.records, expectedVersion with
    | none, none =>
      (Except.ok 1, { st with records := setRecord cid db 1 st.records })
    | none, some _ => (Except.error StoreError.VersionConflict, st)
    | some (_, v), some ev =>
      if ev = v then
        (Except.ok (v + 1), { st with records := setRecord cid db (v + 1) st.records })
      else
        (Except.error StoreError.VersionConflict, st)
    | some _, none => (Except.error StoreError.VersionConflict, st)
  else
    (Except.error StoreError.StoreUnavailable, st)

/-! ## ClusterManager bootstrap (`Init`)

Modelled from the spec, section 4.4: `Init` reads the database to decide
bootstrap-vs-join.  The race with concurrent initializers is embedded as
an interference function applied to the store between this node's read
and its create-if-absent write. -/

/-- Role decided by `Init`: bootstrap leader, or joiner of an existing
cluster. -/
inductive InitRole
  | bootstrapLeader
  | joiner
deriving DecidableEq, Repr

/-- Modelled from the spec: `ClusterManager.Init`.  `NotFound` makes this
node the bootstrap leader: it builds `Database{Id: ClusterId,
NodeEntries: {self}}` and writes it create-if-absent; losing that race
(`VersionConflict`) falls through to the join path, which records the
database another node created.  An existing database means this node is
joining. -/
def managerInit (cfg : Config) (self : NodeEntry) (interf : StoreState → StoreState)
    (st : StoreState) : Except StoreError (InitRole × Database) × StoreState :=
  match readDatabase cfg.ClusterId st with
  | Except.ok (db, _) => (Except.ok (InitRole.joiner, db), st)
  | Except.error StoreError.NotFound =>
    let st1 := interf st
    let freshDb : Database :=
      { Status := 0, Id := cfg.ClusterId, NodeEntries := [(cfg.NodeId, self)] }
    match writeDatabase cfg.ClusterId freshDb none st1 with
    | (Except.ok _, st2) => (Except.ok (InitRole.bootstrapLeader, freshDb), st2)
    | (Except.error StoreError.VersionConflict, _) =>
      (match readDatabase cfg.ClusterId st1 with
       | Except.ok (db, _) => Except.ok (InitRole.joiner, db)
       | Except.error e => Except.error e, st1)
    | (Except.error e, _) => (Except.error e, st1)
  | Except.error e => (Except.error e, st)

/-! ## ListenerRegistry

Modelled from the spec, section 4.3: the registry implementation is not
among the published sources; `cluster.go` only declares the
`ClusterListener` interface.  A listener is embedded by its identity
string and two oracle functions giving the result each callback would
return. -/

/-- Setup callbacks of `ClusterListener`: `ClusterInit`, `Init`, `Join`. -/
inductive SetupKind
  | clusterInit
  | initKind
  | join
deriving DecidableEq, Repr

/-- Steady-state callbacks of `ClusterListener`: `Add`, `Update`,
`Remove`, `Leave`. -/
inductive SteadyKind
  | add
  | update
  | remove
  | leave
deriving DecidableEq, Repr

/-- A registered `ClusterListener`: its `String()` identity and the
outcome of each callback (`none` = success, `some e` = error `e`). -/
structure Listener where
  name : String
  setupErr : SetupKind → Node → Database → Option String
  steadyErr : SteadyKind → Node → Option String

/-- Modelled from the spec: setup dispatch (`DispatchClusterInit`,
`DispatchInit`, `DispatchJoin`) walks the listeners in registration
order; the first error aborts dispatch to the remaining listeners.
Returns the identities called, in call order, and the first error. -/
def dispatchSetup (k : SetupKind) (self : Node) (db : Database) :
    List Listener → List String × Option String
  | [] => ([], none)
  | l :: rest =>
    match l.setupErr k self db with
    | some e => ([l.name], some e)
    | none =>
      let (called, r) := dispatchSetup k self db rest
      (l.name :: called, r)

/-- Modelled from the spec: steady-state dispatch over a given listener
order; listener errors are recorded but never block the remaining
listeners.  Returns the identities called, in call order, and the
`(identity, error)` pairs recorded. -/
def dispatchList (k : SteadyKind) (node : Node) :
    List Listener → List String × List (String × String)
  | [] => ([], [])
  | l :: rest =>
    let (called, errs) := dispatchList k node rest
    match l.steadyErr k node with
    | some e => (l.name :: called, (l.name, e) :: errs)
    | none => (l.name :: called, errs)

/-- Modelled from the spec: steady-state dispatch order — registration
order for `Add`/`Update`/`Remove`, reverse registration order for
`Leave`. -/
def dispatchSteady (k : SteadyKind) (node : Node) (ls : List Listener) :
    List String × List (String × String) :=
  match k with
  | SteadyKind.leave => dispatchList k node ls.reverse
  | _ => dispatchList k node ls

/-- Modelled from the spec: handling of one steady-state membership event
by the manager's dispatch worker — the event is delivered to every
listener, errors are recorded for logging, and the shared `Database`
record in the store is not touched. -/
def handleSteadyEvent (k : SteadyKind) (node : Node) (ls : List Listener)
    (st : StoreState) : (List String × List (String × String)) × StoreState :=
  (dispatchSteady k node ls, st)

/-! ## ClusterManager `Start`

Modelled from the spec, section 4.4: `Start` dispatches the setup
callback for the role decided by `Init`; any dispatch failure aborts
`Start`, leaving the store untouched and the membership tracker
stopped; on success the node adds its own `NodeEntry` to the database by
compare-and-swap and starts the tracker loops. -/

/-- Store a `NodeEntry` under a node id, replacing any previous entry. -/
def setEntry (nid : String) (e : NodeEntry) :
    List (String × NodeEntry) → List (String × NodeEntry)
  | [] => [(nid, e)]
  | (i, e0) :: rest =>
    if i = nid then (nid, e) :: rest else (i, e0) :: setEntry nid e rest

/-- Render a store error as the message `Start` would surface. -/
def storeErrorMessage : StoreError → String
  | StoreError.NotFound => "cluster database not found"
  | StoreError.VersionConflict => "cluster database version conflict"
  | StoreError.StoreUnavailable => "cluster store unavailable"

/-- Modelled from the spec: add or refresh this node's `NodeEntry` in the
stored database through a read-modify-conditional-write. -/
def addSelfEntry (cfg : Config) (e : NodeEntry) (st : StoreState) :
    Except StoreError Unit × StoreState :=
  match readDatabase cfg.ClusterId st with
  | Except.ok (db, v) =>
    let db2 : Database := { db with NodeEntries := setEntry cfg.NodeId e db.NodeEntries }
    (match writeDatabase cfg.ClusterId db2 (some v) st with
     | (Except.ok _, st2) => (Except.ok (), st2)
     | (Except.error er, st2) => (Except.error er, st2))
  | Except.error er => (Except.error er, st)

/-- Outcome of `ClusterManager.Start`: the error returned, the listener
identities whose setup callback ran, and whether the membership tracker
loops were started. -/
structure StartResult where
  err : Option String
  called : List String
  trackerStarted : Bool
deriving DecidableEq, Repr

/-- Modelled from the spec: `ClusterManager.Start` for a node whose
`Init` decided setup kind `k` over database `db`.  Setup dispatch runs
first; its failure aborts `Start` with that error, without registering
the node in the database and without starting the tracker.  On success
the node adds itself by compare-and-swap and starts the tracker. -/
def managerStart (cfg : Config) (self : Node) (selfEntry : NodeEntry) (k : SetupKind)
    (ls : List Listener) (db : Database) (st : StoreState) : StartResult × StoreState :=
  match dispatchSetup k self db ls with
  | (called, some e) => ({ err := some e, called := called, trackerStarted := false }, st)
  | (called, none) =>
    match addSelfEntry cfg selfEntry st with
    | (Except.ok _, st2) => ({ err := none, called := called, trackerStarted := true }, st2)
    | (Except.error er, st2) =>
      ({ err := some (storeErrorMessage er), called := called, trackerStarted := false }, st2)

/-! ## Process lifetime trace

Modelled from the spec, sections 4.4 and 5: one process lifetime performs
the bootstrap/join setup dispatch once, and only if it succeeds starts
the serialized steady-state event loop.  The trace records every listener
callback invocation in order. -/

/-- Kind of a recorded listener invocation. -/
inductive CallKind
  | setup (k : SetupKind)
  | steady (k : SteadyKind)
deriving DecidableEq, Repr

/-- One recorded listener invocation: which listener, which callback. -/
structure Call where
  listener : String
  kind : CallKind
deriving DecidableEq, Repr

/-- Whether a recorded invocation is a setup callback
(`ClusterInit`/`Init`/`Join`). -/
def isSetupCall (c : Call) : Bool :=
  match c.kind with
  | CallKind.setup _ => true
  | CallKind.steady _ => false

/-- Whether a recorded invocation is a steady-state membership callback
(`Add`/`Update`/`Remove`). -/
def isMembershipCall (c : Call) : Bool :=
  match c.kind with
  | CallKind.steady SteadyKind.add => true
  | CallKind.steady SteadyKind.update => true
  | CallKind.steady SteadyKind.remove => true
  | _ => false

/-- Modelled from the spec: the listener invocations of one process
lifetime — the setup dispatch for kind `k`, followed, only when setup
succeeded, by the dispatch of each steady-state event in arrival order. -/
def processTrace (k : SetupKind) (self : Node) (db : Database) (ls : List Listener)
    (events : List (SteadyKind × Node)) : List Call :=
  match dispatchSetup k self db ls with
  | (called, some _) => called.map (fun n => { listener := n, kind := CallKind.setup k })
  | (called, none) =>
    called.map (fun n => { listener := n, kind := CallKind.setup k }) ++
      events.flatMap (fun ev =>
        ((dispatchSteady ev.1 ev.2 ls).1).map
          (fun n => { listener := n, kind := CallKind.steady ev.1 }))

/-! ## Sample listeners for concrete evaluations -/

/-- A listener that accepts every callback. -/
def okListenerA : Listener :=
  { name := "A", setupErr := fun _ _ _ => none, steadyErr := fun _ _ => none }

/-- A second listener that accepts every callback. -/
def okListenerC : Listener :=
  { name := "C", setupErr := fun _ _ _ => none, steadyErr := fun _ _ => none }

/-- A listener that rejects every callback. -/
def failListenerB : Listener :=
  { name := "B", setupErr := fun _ _ _ => some "setup rejected",
    steadyErr := fun _ _ => some "event rejected" }

/-! ## Theorems -/

/-- C7: calling the package-level `Start()` or `Inst()` while the
singleton is nil performs no cluster operation — the package state is
returned unchanged — and both fail with "Cluster is not initialized.". -/
theorem cluster_start_inst_not_initialized (s : PkgState) (h : s.inst = none) :
    clusterStart s = (some "Cluster is not initialized.", s) ∧
    clusterInst s = Except.error "Cluster is not initialized." := by
  constructor <;> simp [clusterStart, clusterInst, h]

/-- Witness for C7 at the empty package state. -/
theorem cluster_start_inst_not_initialized_witness :
    clusterStart { inst := none } = (some "Cluster is not initialized.", { inst := none }) ∧
    clusterInst { inst := none } = Except.error "Cluster is not initialized." :=
  cluster_start_inst_not_initialized { inst := none } rfl

/-- C8: `New(cfg, kv)` with a succeeding `Init()` returns the constructed
manager and installs it as the singleton, so `Inst()` returns the same
instance; with a failing `Init()` it returns the error, the singleton
stays unset, and `Inst()` fails. -/
theorem cluster_new_singleton (cfg : Config) (initErr startErr : Option String)
    (s : PkgState) :
    (initErr = none →
      clusterNew cfg initErr startErr s =
        (Except.ok { config := cfg, initErr := initErr, startErr := startErr },
         { inst := some { config := cfg, initErr := initErr, startErr := startErr } }) ∧
      clusterInst (clusterNew cfg initErr startErr s).2 =
        Except.ok { config := cfg, initErr := initErr, startErr := startErr }) ∧
    (∀ e, initErr = some e →
      clusterNew cfg initErr startErr s = (Except.error e, { inst := none }) ∧
      clusterInst (clusterNew cfg initErr startErr s).2 =
        Except.error "Cluster is not initialized.") := by
  constructor
  · intro h
    subst h
    constructor <;> simp [clusterNew, clusterInst]
  · intro e h
    subst h
    constructor <;> simp [clusterNew, clusterInst]

/-- Witness for C8: a successful construction is visible through `Inst`,
a failed one leaves the singleton unset. -/
theorem cluster_new_singleton_witness :
    clusterInst (clusterNew { ClusterId := "c1", NodeId := "n1" } none none { inst := none }).2 =
      Except.ok { config := { ClusterId := "c1", NodeId := "n1" },
                  initErr := none, startErr := none } ∧
    clusterNew { ClusterId := "c1", NodeId := "n1" } (some "kv down") none { inst := none } =
      (Except.error "kv down", { inst := none }) :=
  ⟨((cluster_new_singleton { ClusterId := "c1", NodeId := "n1" } none none
      { inst := none }).1 rfl).2,
   ((cluster_new_singleton { ClusterId := "c1", NodeId := "n1" } (some "kv down") none
      { inst := none }).2 "kv down" rfl).1⟩

/-- C9: when the package-level `Start()` runs on an installed singleton
whose `Start()` method fails, the error is returned and the singleton is
reset to nil, so any subsequent `Inst()` or package-level `Start()` fails
with "Cluster is not initialized.". -/
theorem cluster_start_failure_clears_singleton (s : PkgState) (m : ClusterManager)
    (e : String) (hm : s.inst = some m) (he : m.startErr = some e) :
    clusterStart s = (some e, { inst := none }) ∧
    clusterInst (clusterStart s).2 = Except.error "Cluster is not initialized." ∧
    clusterStart (clusterStart s).2 =
      (some "Cluster is not initialized.", { inst := none }) := by
  refine ⟨?_, ?_, ?_⟩ <;> simp [clusterStart, clusterInst, hm, he]

/-- Witness for C9 at a concrete manager whose `Start()` fails. -/
theorem cluster_start_failure_clears_singleton_witness :
    clusterStart { inst := some { config := { ClusterId := "c1", NodeId := "n1" },
                                  initErr := none, startErr := some "boom" } } =
      (some "boom", { inst := none }) ∧
    clusterInst (clusterStart { inst := some { config := { ClusterId := "c1", NodeId := "n1" },
                                               initErr := none, startErr := some "boom" } }).2 =
      Except.error "Cluster is not initialized." ∧
    clusterStart (clusterStart { inst := some { config := { ClusterId := "c1", NodeId := "n1" },
                                                initErr := none, startErr := some "boom" } }).2 =
      (some "Cluster is not initialized.", { inst := none }) :=
  cluster_start_failure_clears_singleton
    { inst := some { config := { ClusterId := "c1", NodeId := "n1" },
                     initErr := none, startErr := some "boom" } }
    { config := { ClusterId := "c1", NodeId := "n1" },
      initErr := none, startErr := some "boom" } "boom" rfl rfl

/-- C10: `btrfsDriver.Create` with a volume spec whose format is neither
btrfs nor empty returns `api.BadVolumeID` with a format error, with the
driver state unchanged and independently of every external call's outcome
— so no volume id is generated and no record or subvolume is created. -/
theorem btrfs_create_rejects_format (env : BtrfsEnv) (locator : VolumeLocator)
    (options : Option CreateOptions) (spec : VolumeSpec) (s : BtrfsState)
    (h1 : spec.Format ≠ FsBtrfs) (h2 : spec.Format ≠ "") :
    btrfsDriverCreate env locator options spec s =
      ((BadVolumeID,
        some ("Filesystem format (" ++ spec.Format ++ ") must be " ++ FsBtrfs)), s) := by
  simp [btrfsDriverCreate, h1, h2]

/-- Witness for C10 at an ext4-format spec against an environment where
every external call would succeed. -/
theorem btrfs_create_rejects_format_witness :
    btrfsDriverCreate
      { uuidResult := Except.ok "6ba7b810", createVolErr := none,
        btrfsCreateErr := none, btrfsGetResult := Except.ok "/var/btrfs/6ba7b810",
        updateVolErr := none }
      { Name := "v0" } none { Format := "ext4", Size := 1024 }
      { vols := [], subvols := [] } =
      ((BadVolumeID, some "Filesystem format (ext4) must be btrfs"),
       { vols := [], subvols := [] }) :=
  btrfs_create_rejects_format
    { uuidResult := Except.ok "6ba7b810", createVolErr := none,
      btrfsCreateErr := none, btrfsGetResult := Except.ok "/var/btrfs/6ba7b810",
      updateVolErr := none }
    { Name := "v0" } none { Format := "ext4", Size := 1024 }
    { vols := [], subvols := [] } (by decide) (by decide)

/-- Looking up the record just stored by `setRecord` returns it with its
version. -/
theorem findRecord_setRecord (cid : String) (db : Database) (v : Nat)
    (l : List (String × Database × Nat)) :
    findRecord cid (setRecord cid db v l) = some (db, v) := by
  induction l with
  | nil => simp [setRecord, findRecord]
  | cons p rest ih =>
    obtain ⟨c, d0, v0⟩ := p
    by_cases h : c = cid
    · simp [setRecord, findRecord, h]
    · simp [setRecord, findRecord, h, ih]

/-- C2: `WriteDatabase` against a reachable store whose record for the
cluster id carries a version different from `expectedVersion` fails with
`VersionConflict` and leaves the store — hence the stored `Database` —
unchanged; a stale write never succeeds. -/
theorem write_database_stale_version_conflict (cid : String) (db0 db1 : Database)
    (v : Nat) (ev : Option Nat) (st : StoreState)
    (hav : st.available = true)
    (hrec : findRecord cid st.records = some (db0, v))
    (hne : ev ≠ some v) :
    writeDatabase cid db1 ev st = (Except.error StoreError.VersionConflict, st) := by
  cases ev with
  | none => simp [writeDatabase, hav, hrec]
  | some x =>
    have hxv : x ≠ v := fun h => hne (by rw [h])
    simp [writeDatabase, hav, hrec, hxv]

/-- Witness for C2: a writer holding version 1 loses against a store that
has moved to version 2, and the stored record keeps its value. -/
theorem write_database_stale_version_conflict_witness :
    writeDatabase "c1"
      { Status := 0, Id := "c1", NodeEntries := [("n2", { Id := "n2", Ip := "10.0.0.2" })] }
      (some 1)
      { available := true,
        records := [("c1",
          { Status := 0, Id := "c1", NodeEntries := [("n1", { Id := "n1", Ip := "10.0.0.1" })] },
          2)] } =
      (Except.error StoreError.VersionConflict,
       { available := true,
         records := [("c1",
           { Status := 0, Id := "c1", NodeEntries := [("n1", { Id := "n1", Ip := "10.0.0.1" })] },
           2)] }) :=
  write_database_stale_version_conflict "c1"
    { Status := 0, Id := "c1", NodeEntries := [("n1", { Id := "n1", Ip := "10.0.0.1" })] }
    { Status := 0, Id := "c1", NodeEntries := [("n2", { Id := "n2", Ip := "10.0.0.2" })] }
    2 (some 1)
    { available := true,
      records := [("c1",
        { Status := 0, Id := "c1", NodeEntries := [("n1", { Id := "n1", Ip := "10.0.0.1" })] },
        2)] }
    rfl (by decide) (by decide)

/-- C1: an `Init()` whose read observes `NotFound` makes this node the
bootstrap leader and creates, via create-if-absent, exactly the record
`Database{Id: ClusterId, NodeEntries: {NodeId: self}}` at version 1 when
the store still has no record at write time; and when a concurrent
initializer won the race so that the create-if-absent fails with
`VersionConflict`, `Init` falls through to the join path with the
database the winner created, instead of failing. -/
theorem manager_init_bootstrap (cfg : Config) (self : NodeEntry)
    (interf : StoreState → StoreState) (st : StoreState)
    (hnf : readDatabase cfg.ClusterId st = Except.error StoreError.NotFound) :
    ((interf st).available = true →
      findRecord cfg.ClusterId (interf st).records = none →
      managerInit cfg self interf st =
        (Except.ok (InitRole.bootstrapLeader,
           { Status := 0, Id := cfg.ClusterId, NodeEntries := [(cfg.NodeId, self)] }),
         { interf st with
             records := setRecord cfg.ClusterId
               { Status := 0, Id := cfg.ClusterId, NodeEntries := [(cfg.NodeId, self)] }
               1 (interf st).records }) ∧
      findRecord cfg.ClusterId (managerInit cfg self interf st).2.records =
        some ({ Status := 0, Id := cfg.ClusterId, NodeEntries := [(cfg.NodeId, self)] }, 1)) ∧
    (∀ db0 v, (interf st).available = true →
      findRecord cfg.ClusterId (interf st).records = some (db0, v) →
      managerInit cfg self interf st = (Except.ok (InitRole.joiner, db0), interf st)) := by
  constructor
  · intro hav hnone
    have hmain : managerInit cfg self interf st =
        (Except.ok (InitRole.bootstrapLeader,
           { Status := 0, Id := cfg.ClusterId, NodeEntries := [(cfg.NodeId, self)] }),
         { interf st with
             records := setRecord cfg.ClusterId
               { Status := 0, Id := cfg.ClusterId, NodeEntries := [(cfg.NodeId, self)] }
               1 (interf st).records }) := by
      unfold managerInit
      rw [hnf]
      simp [writeDatabase, hav, hnone]
    refine ⟨hmain, ?_⟩
    rw [hmain]
    exact findRecord_setRecord cfg.ClusterId _ 1 (interf st).records
  · intro db0 v hav hsome
    unfold managerInit
    rw [hnf]
    simp [writeDatabase, readDatabase, hav, hsome]

/-- Witness for C1: against an empty store, node n1 becomes bootstrap
leader and creates exactly its fresh database at version 1; when a
concurrent node n2 creates the database between n1's read and write, n1
falls through to the join path with n2's database. -/
theorem manager_init_bootstrap_witness :
    managerInit { ClusterId := "c1", NodeId := "n1" } { Id := "n1", Ip := "10.0.0.1" }
      id { available := true, records := [] } =
      (Except.ok (InitRole.bootstrapLeader,
         { Status := 0, Id := "c1",
           NodeEntries := [("n1", { Id := "n1", Ip := "10.0.0.1" })] }),
       { available := true,
         records := [("c1",
           { Status := 0, Id := "c1",
             NodeEntries := [("n1", { Id := "n1", Ip := "10.0.0.1" })] }, 1)] }) ∧
    managerInit { ClusterId := "c1", NodeId := "n1" } { Id := "n1", Ip := "10.0.0.1" }
      (fun _ => { available := true,
                  records := [("c1",
                    { Status := 0, Id := "c1",
                      NodeEntries := [("n2", { Id := "n2", Ip := "10.0.0.2" })] }, 1)] })
      { available := true, records := [] } =
      (Except.ok (InitRole.joiner,
         { Status := 0, Id := "c1",
           NodeEntries := [("n2", { Id := "n2", Ip := "10.0.0.2" })] }),
       { available := true,
         records := [("c1",
           { Status := 0, Id := "c1",
             NodeEntries := [("n2", { Id := "n2", Ip := "10.0.0.2" })] }, 1)] }) :=
  ⟨((manager_init_bootstrap { ClusterId := "c1", NodeId := "n1" }
      { Id := "n1", Ip := "10.0.0.1" } id { available := true, records := [] }
      rfl).1 rfl rfl).1,
   (manager_init_bootstrap { ClusterId := "c1", NodeId := "n1" }
      { Id := "n1", Ip := "10.0.0.1" }
      (fun _ => { available := true,
                  records := [("c1",
                    { Status := 0, Id := "c1",
                      NodeEntries := [("n2", { Id := "n2", Ip := "10.0.0.2" })] }, 1)] })
      { available := true, records := [] } rfl).2
     { Status := 0, Id := "c1", NodeEntries := [("n2", { Id := "n2", Ip := "10.0.0.2" })] }
     1 rfl rfl⟩

/-- Steady-state dispatch calls every listener of the given order, by
name and in that order. -/
theorem dispatchList_called (k : SteadyKind) (node : Node) (ls : List Listener) :
    (dispatchList k node ls).1 = ls.map (fun l => l.name) := by
  induction ls with
  | nil => rfl
  | cons l rest ih =>
    cases h : l.steadyErr k node <;> simp [dispatchList, h, ih]

/-- A listener error during steady-state dispatch is recorded with the
listener's identity. -/
theorem dispatchList_err_mem (k : SteadyKind) (node : Node) (ls : List Listener)
    (l : Listener) (e : String) (hl : l ∈ ls) (he : l.steadyErr k node = some e) :
    (l.name, e) ∈ (dispatchList k node ls).2 := by
  induction ls with
  | nil => cases hl
  | cons a rest ih =>
    rcases List.mem_cons.mp hl with h | hmem
    · subst h
      simp [dispatchList, he]
    · cases h : a.steadyErr k node <;> simp [dispatchList, h, ih hmem]

/-- Setup dispatch over a prefix of accepting listeners followed by a
rejecting listener calls exactly that prefix plus the rejecting listener
and returns its error. -/
theorem dispatchSetup_prefix_error (k : SetupKind) (self : Node) (db : Database)
    (pre post : List Listener) (fl : Listener) (e : String)
    (hpre : ∀ l ∈ pre, l.setupErr k self db = none)
    (hfl : fl.setupErr k self db = some e) :
    dispatchSetup k self db (pre ++ fl :: post) =
      (pre.map (fun l => l.name) ++ [fl.name], some e) := by
  induction pre with
  | nil => simp [dispatchSetup, hfl]
  | cons a rest ih =>
    have ha : a.setupErr k self db = none := hpre a (List.mem_cons_self a rest)
    have hr := ih (fun l hl => hpre l (List.mem_cons_of_mem a hl))
    simp [dispatchSetup, ha, hr]

/-- C3: when a listener rejects its setup callback during `Start`, every
listener before it is called, dispatch to the listeners after it is
aborted, `Start` returns that error, and neither is the node's
`NodeEntry` added to the stored database (the store is unchanged) nor is
the membership tracker started. -/
theorem manager_start_listener_error_aborts (cfg : Config) (self : Node)
    (selfEntry : NodeEntry) (k : SetupKind) (pre post : List Listener) (fl : Listener)
    (db : Database) (st : StoreState) (e : String)
    (hpre : ∀ l ∈ pre, l.setupErr k self db = none)
    (hfl : fl.setupErr k self db = some e) :
    managerStart cfg self selfEntry k (pre ++ fl :: post) db st =
      ({ err := some e, called := pre.map (fun l => l.name) ++ [fl.name],
         trackerStarted := false }, st) := by
  unfold managerStart
  rw [dispatchSetup_prefix_error k self db pre post fl e hpre hfl]

/-- Witness for C3: with listeners [A, B, C] where B rejects setup,
`Start` calls only A and B, returns B's error, leaves the store
unchanged, and does not start the tracker. -/
theorem manager_start_listener_error_aborts_witness :
    managerStart { ClusterId := "c1", NodeId := "n1" } { Id := "n1", Ip := "10.0.0.1" }
      { Id := "n1", Ip := "10.0.0.1" } SetupKind.clusterInit
      ([okListenerA] ++ failListenerB :: [okListenerC])
      { Status := 0, Id := "c1", NodeEntries := [] }
      { available := true, records := [("c1", { Status := 0, Id := "c1", NodeEntries := [] }, 1)] } =
      ({ err := some "setup rejected", called := ["A", "B"], trackerStarted := false },
       { available := true,
         records := [("c1", { Status := 0, Id := "c1", NodeEntries := [] }, 1)] }) :=
  manager_start_listener_error_aborts { ClusterId := "c1", NodeId := "n1" }
    { Id := "n1", Ip := "10.0.0.1" } { Id := "n1", Ip := "10.0.0.1" }
    SetupKind.clusterInit [okListenerA] [okListenerC] failListenerB
    { Status := 0, Id := "c1", NodeEntries := [] }
    { available := true, records := [("c1", { Status := 0, Id := "c1", NodeEntries := [] }, 1)] }
    "setup rejected"
    (by intro l hl
        rcases List.mem_singleton.mp hl with rfl
        rfl)
    rfl

/-- C4: when a listener rejects a steady-state event, the pair of its
identity and error is recorded for logging, every registered listener is
still called for the event, and the stored database is unchanged. -/
theorem steady_event_listener_error_isolated (k : SteadyKind) (node : Node)
    (ls : List Listener) (st : StoreState) (l : Listener) (e : String)
    (hl : l ∈ ls) (he : l.steadyErr k node = some e) :
    (l.name, e) ∈ (handleSteadyEvent k node ls st).1.2 ∧
    (∀ l2 ∈ ls, l2.name ∈ (handleSteadyEvent k node ls st).1.1) ∧
    (handleSteadyEvent k node ls st).2 = st := by
  refine ⟨?_, ?_, rfl⟩
  · cases k <;>
      simp only [handleSteadyEvent, dispatchSteady] <;>
      first
        | exact dispatchList_err_mem _ node ls l e hl he
        | exact dispatchList_err_mem _ node ls.reverse l e (List.mem_reverse.mpr hl) he
  · intro l2 hl2
    cases k <;>
      simp only [handleSteadyEvent, dispatchSteady, dispatchList_called] <;>
      first
        | exact List.mem_map_of_mem _ hl2
        | exact List.mem_map_of_mem _ (List.mem_reverse.mpr hl2)

/-- Witness for C4: listener B rejects an `Add` while A and C accept it;
B's error is recorded, A, B and C are all called, and the store is
unchanged. -/
theorem steady_event_listener_error_isolated_witness :
    ("B", "event rejected") ∈
      (handleSteadyEvent SteadyKind.add { Id := "n3", Ip := "10.0.0.3" }
        [okListenerA, failListenerB, okListenerC]
        { available := true, records := [] }).1.2 ∧
    (∀ l2 ∈ [okListenerA, failListenerB, okListenerC],
      l2.name ∈
        (handleSteadyEvent SteadyKind.add { Id := "n3", Ip := "10.0.0.3" }
          [okListenerA, failListenerB, okListenerC]
          { available := true, records := [] }).1.1) ∧
    (handleSteadyEvent SteadyKind.add { Id := "n3", Ip := "10.0.0.3" }
      [okListenerA, failListenerB, okListenerC]
      { available := true, records := [] }).2 =
      { available := true, records := [] } :=
  steady_event_listener_error_isolated SteadyKind.add { Id := "n3", Ip := "10.0.0.3" }
    [okListenerA, failListenerB, okListenerC] { available := true, records := [] }
    failListenerB "event rejected"
    (List.mem_cons_of_mem _ (List.mem_cons_self _ _)) rfl

/-- C5: steady-state events are dispatched in registration order for
`Add` and `Update` and in reverse registration order for `Leave`. -/
theorem dispatch_order_add_update_leave (node : Node) (ls : List Listener) :
    (dispatchSteady SteadyKind.add node ls).1 = ls.map (fun l => l.name) ∧
    (dispatchSteady SteadyKind.update node ls).1 = ls.map (fun l => l.name) ∧
    (dispatchSteady SteadyKind.leave node ls).1 = (ls.map (fun l => l.name)).reverse := by
  refine ⟨?_, ?_, ?_⟩ <;>
    simp [dispatchSteady, dispatchList_called, List.map_reverse]

/-- A membership invocation (`Add`/`Update`/`Remove`) is never a setup
invocation. -/
theorem isMembershipCall_not_setup (c : Call) (h : isMembershipCall c = true) :
    isSetupCall c = false := by
  obtain ⟨nm, k⟩ := c
  cases k with
  | setup k0 => simp [isMembershipCall] at h
  | steady k0 => rfl

/-- The identities called by setup dispatch form a sublist of the
registered identities. -/
theorem dispatchSetup_called_sublist (k : SetupKind) (self : Node) (db : Database)
    (ls : List Listener) :
    List.Sublist (dispatchSetup k self db ls).1 (ls.map (fun l => l.name)) := by
  induction ls with
  | nil => simp [dispatchSetup]
  | cons l rest ih =>
    rcases hrec : dispatchSetup k self db rest with ⟨called, r⟩
    rw [hrec] at ih
    cases h : l.setupErr k self db with
    | some e => simp [dispatchSetup, h]
    | none =>
      simp only [dispatchSetup, h, hrec]
      exact List.Sublist.cons₂ _ ih

/-- Filtering a list of distinct names for one name keeps at most one
element. -/
theorem filter_names_nodup_le_one (names : List String) (nm : String)
    (h : names.Nodup) : (names.filter (fun n => n == nm)).length ≤ 1 := by
  induction names with
  | nil => simp
  | cons a rest ih =>
    rw [List.nodup_cons] at h
    by_cases ha : a = nm
    · subst ha
      have hnil : rest.filter (fun n => n == a) = [] := by
        rw [List.filter_eq_nil_iff]
        intro b hb
        simp only [beq_iff_eq]
        intro hba
        exact h.1 (hba ▸ hb)
      simp [List.filter_cons, hnil]
    · simp [List.filter_cons, ha, ih h.2]

/-- Filtering the setup part of a trace for one listener's setup calls is
the image of filtering the called names for that listener. -/
theorem trace_filter_setup (called : List String) (k : SetupKind) (nm : String) :
    ((called.map (fun n => ({ listener := n, kind := CallKind.setup k } : Call))).filter
        (fun c => c.listener == nm && isSetupCall c)) =
      (called.filter (fun n => n == nm)).map
        (fun n => ({ listener := n, kind := CallKind.setup k } : Call)) := by
  induction called with
  | nil => rfl
  | cons a rest ih =>
    have hset : isSetupCall { listener := a, kind := CallKind.setup k } = true := rfl
    by_cases ha : a = nm
    · subst ha
      simp [List.filter_cons, hset, ih]
    · simp [List.filter_cons, hset, ha, ih]

/-- A process trace splits into its setup-dispatch prefix followed by
invocations none of which is a setup call. -/
theorem processTrace_split (k : SetupKind) (self : Node) (db : Database)
    (ls : List Listener) (events : List (SteadyKind × Node)) :
    ∃ t2, processTrace k self db ls events =
        ((dispatchSetup k self db ls).1.map
          (fun n => ({ listener := n, kind := CallKind.setup k } : Call))) ++ t2 ∧
      ∀ c ∈ t2, isSetupCall c = false := by
  rcases hds : dispatchSetup k self db ls with ⟨called, r⟩
  cases r with
  | some e =>
    refine ⟨[], ?_, by simp⟩
    simp [processTrace, hds]
  | none =>
    refine ⟨events.flatMap (fun ev =>
      ((dispatchSteady ev.1 ev.2 ls).1).map
        (fun n => ({ listener := n, kind := CallKind.steady ev.1 } : Call))), ?_, ?_⟩
    · simp [processTrace, hds]
    · intro c hc
      rcases List.mem_flatMap.mp hc with ⟨ev, _, hc2⟩
      rcases List.mem_map.mp hc2 with ⟨n, _, hn⟩
      rw [← hn]
      rfl

/-- In a trace of setup calls followed by non-setup calls, every setup
invocation is at a strictly smaller index than every membership
invocation. -/
theorem setup_before_membership_append (t1 t2 : List Call)
    (h1 : ∀ c ∈ t1, isSetupCall c = true)
    (h2 : ∀ c ∈ t2, isSetupCall c = false) :
    ∀ i j (hi : i < (t1 ++ t2).length) (hj : j < (t1 ++ t2).length),
      isSetupCall ((t1 ++ t2).get ⟨i, hi⟩) = true →
      isMembershipCall ((t1 ++ t2).get ⟨j, hj⟩) = true →
      i < j := by
  intro i j hi hj hpi hqj
  have hilt : i < t1.length := by
    by_contra hge
    push_neg at hge
    have hlen : i - t1.length < t2.length := by
      have := List.length_append t1 t2
      omega
    have he : (t1 ++ t2).get ⟨i, hi⟩ = t2.get ⟨i - t1.length, hlen⟩ := by
      simp [List.get_eq_getElem, List.getElem_append_right hge]
    rw [he] at hpi
    have hf := h2 (t2.get ⟨i - t1.length, hlen⟩) (List.get_mem t2 _ hlen)
    rw [hf] at hpi
    exact Bool.false_ne_true hpi
  have hjge : t1.length ≤ j := by
    by_contra hlt
    push_neg at hlt
    have he : (t1 ++ t2).get ⟨j, hj⟩ = t1.get ⟨j, hlt⟩ := by
      simp [List.get_eq_getElem, List.getElem_append_left hlt]
    rw [he] at hqj
    have hp := h1 (t1.get ⟨j, hlt⟩) (List.get_mem t1 _ hlt)
    have hq := isMembershipCall_not_setup _ hqj
    rw [hp] at hq
    simp at hq
  omega

/-- C6: over one process lifetime with distinct listener identities, the
setup callback (`ClusterInit`/`Init`/`Join`) is invoked on each listener
at most once, and every `Add`/`Update`/`Remove` invocation on a listener
comes strictly after every setup invocation on it. -/
theorem setup_once_before_membership (k : SetupKind) (self : Node) (db : Database)
    (ls : List Listener) (events : List (SteadyKind × Node)) (nm : String)
    (hnodup : (ls.map (fun l => l.name)).Nodup) :
    ((processTrace k self db ls events).filter
        (fun c => c.listener == nm && isSetupCall c)).length ≤ 1 ∧
    (∀ i j (hi : i < (processTrace k self db ls events).length)
        (hj : j < (processTrace k self db ls events).length),
      ((processTrace k self db ls events).get ⟨i, hi⟩).listener = nm →
      isSetupCall ((processTrace k self db ls events).get ⟨i, hi⟩) = true →
      ((processTrace k self db ls events).get ⟨j, hj⟩).listener = nm →
      isMembershipCall ((processTrace k self db ls events).get ⟨j, hj⟩) = true →
      i < j) := by
  obtain ⟨t2, hsplit, ht2⟩ := processTrace_split k self db ls events
  have hcallednodup : (dispatchSetup k self db ls).1.Nodup :=
    hnodup.sublist (dispatchSetup_called_sublist k self db ls)
  constructor
  · rw [hsplit, List.filter_append]
    have h2 : t2.filter (fun c => c.listener == nm && isSetupCall c) = [] := by
      rw [List.filter_eq_nil_iff]
      intro c hc
      simp [ht2 c hc]
    rw [h2, List.append_nil, trace_filter_setup, List.length_map]
    exact filter_names_nodup_le_one _ nm hcallednodup
  · rw [hsplit]
    intro i j hi hj _ hsi _ hmj
    refine setup_before_membership_append _ t2 ?_ ht2 i j hi hj hsi hmj
    intro c hc
    rcases List.mem_map.mp hc with ⟨n, _, hn⟩
    rw [← hn]
    rfl

/-- Witness for C6: in the trace of a lifetime with listeners [A, C] and
one Add event, A's setup call appears at most once, and A's setup call at
index 0 precedes A's Add call at index 2. -/
theorem setup_once_before_membership_witness :
    ((processTrace SetupKind.clusterInit { Id := "n1", Ip := "10.0.0.1" }
        { Status := 0, Id := "c1", NodeEntries := [] } [okListenerA, okListenerC]
        [(SteadyKind.add, { Id := "n3", Ip := "10.0.0.3" })]).filter
        (fun c => c.listener == "A" && isSetupCall c)).length ≤ 1 ∧
    (0 : Nat) < 2 :=
  ⟨(setup_once_before_membership SetupKind.clusterInit { Id := "n1", Ip := "10.0.0.1" }
      { Status := 0, Id := "c1", NodeEntries := [] } [okListenerA, okListenerC]
      [(SteadyKind.add, { Id := "n3", Ip := "10.0.0.3" })] "A" (by decide)).1,
   (setup_once_before_membership SetupKind.clusterInit { Id := "n1", Ip := "10.0.0.1" }
      { Status := 0, Id := "c1", NodeEntries := [] } [okListenerA, okListenerC]
      [(SteadyKind.add, { Id := "n3", Ip := "10.0.0.3" })] "A" (by decide)).2
     0 2 (by decide) (by decide) rfl rfl rfl rfl⟩

end OpenStorage
